import Mathlib

/-!
Shallow embedding of the `webservice_rust_workshop` key-value HTTP service
(`src/lib.rs`): the shared store behind a poisonable read-write lock, the
four key-value handlers, the admin bearer-token authorization layer, the
error-normalization function and the logging middleware, together with
theorems about the testable properties of the specification.
-/

namespace KV

/-- Opaque byte payloads (`axum::body::Bytes`): sequences of bytes. -/
abbrev Bytes := List Nat

/-- The inner map `HashMap<String, Bytes>`, modelled as an association
list with at most one live binding per key (lookup takes the first). -/
abbrev Db := List (String × Bytes)

/-- `HashMap::get`: the first binding of `k`, if any. -/
def dbGet : Db → String → Option Bytes
  | [], _ => none
  | (k', v) :: rest, k => if k' = k then some v else dbGet rest k

/-- `HashMap::insert`: replace the binding of `k` in place, or append it. -/
def dbInsert : Db → String → Bytes → Db
  | [], k, v => [(k, v)]
  | (k', v') :: rest, k, v =>
      if k' = k then (k, v) :: rest else (k', v') :: dbInsert rest k v

/-- `HashMap::remove` (value discarded): drop the first binding of `k`. -/
def dbRemove : Db → String → Db
  | [], _ => []
  | (k', v') :: rest, k => if k' = k then rest else (k', v') :: dbRemove rest k

/-- `AppState`: the application state guarded by the lock. -/
structure AppState where
  db : Db
  deriving DecidableEq, Repr

/-- `SharedState = Arc<RwLock<AppState>>`: the poison flag of the lock
together with the guarded state. Acquiring the lock fails exactly when
poisoned. -/
structure SharedState where
  poisoned : Bool
  appState : AppState
  deriving DecidableEq, Repr

/-- `RwLock::write` / `RwLock::read`: yields the guarded state, or fails
when the lock is poisoned (`PoisonError`). -/
def SharedState.acquire (s : SharedState) : Except Unit AppState :=
  if s.poisoned then .error () else .ok s.appState

/-- The HTTP status codes the service produces. -/
inductive StatusCode where
  | OK
  | NOT_FOUND
  | UNAUTHORIZED
  | REQUEST_TIMEOUT
  | INTERNAL_SERVER_ERROR
  deriving DecidableEq, Repr

/-- Numeric value of each status code. -/
def StatusCode.toNat : StatusCode → Nat
  | .OK => 200
  | .NOT_FOUND => 404
  | .UNAUTHORIZED => 401
  | .REQUEST_TIMEOUT => 408
  | .INTERNAL_SERVER_ERROR => 500

/-- A response body: raw stored bytes, or a static text message. -/
inductive HttpBody where
  | raw (b : Bytes)
  | text (s : String)
  deriving DecidableEq, Repr

/-- An HTTP response as produced by `IntoResponse`. -/
structure Response where
  status : StatusCode
  body : HttpBody
  deriving DecidableEq, Repr

/-- `DbError(StatusCode, &'static str)` from `lib.rs`. -/
structure DbError where
  status : StatusCode
  message : String
  deriving DecidableEq, Repr

/-- `impl From<PoisonError<T>> for DbError`. -/
def DbError.fromPoison : DbError :=
  ⟨.INTERNAL_SERVER_ERROR, "Database corrupted"⟩

/-- `impl IntoResponse for DbError`: `(self.0, self.1).into_response()`. -/
def DbError.intoResponse (e : DbError) : Response :=
  ⟨e.status, .text e.message⟩

/-- `handler_kv_get`: read-lock the state and look up `key`; `Ok` with the
stored bytes, `Err(DbError(NOT_FOUND, "Key not found"))` when absent, and
the poison error converted through `From<PoisonError>` when the lock is
poisoned. -/
def handler_kv_get (key : String) (state : SharedState) : Except DbError Bytes :=
  match state.acquire with
  | .error _ => .error DbError.fromPoison
  | .ok app =>
      match dbGet app.db key with
      | some val => .ok val
      | none => .error ⟨.NOT_FOUND, "Key not found"⟩

/-- The full HTTP response of `GET /kv/:key`: `Ok(bytes)` becomes status
OK with the raw bytes, `Err(e)` becomes `e.into_response()`. -/
def kvGetResponse (key : String) (state : SharedState) : Response :=
  match handler_kv_get key state with
  | .ok v => ⟨.OK, .raw v⟩
  | .error e => e.intoResponse

/-- `handler_kv_post`: write-lock the state; on poison return
`(INTERNAL_SERVER_ERROR, "Database corrupted")` leaving the state as is,
otherwise insert `bytes` at `key` and answer `Ok("Inserted key")`. The
second component is the shared state after the request. -/
def handler_kv_post (key : String) (state : SharedState) (bytes : Bytes) :
    Except (StatusCode × String) String × SharedState :=
  match state.acquire with
  | .error _ => (.error (.INTERNAL_SERVER_ERROR, "Database corrupted"), state)
  | .ok app =>
      (.ok "Inserted key",
       { state with appState := { app with db := dbInsert app.db key bytes } })

/-- `admin_handle_delete_key`: write-lock the state; on poison return
`(INTERNAL_SERVER_ERROR, "Database corrupted")` leaving the state as is,
otherwise remove `key` (result discarded) and answer `(OK, "Deleted entry")`. -/
def admin_handle_delete_key (key : String) (state : SharedState) :
    (StatusCode × String) × SharedState :=
  match state.acquire with
  | .error _ => ((.INTERNAL_SERVER_ERROR, "Database corrupted"), state)
  | .ok app =>
      ((.OK, "Deleted entry"),
       { state with appState := { app with db := dbRemove app.db key } })

/-- `admin_handle_delete`: write-lock the state; on poison return
`(INTERNAL_SERVER_ERROR, "Database corrupted")` leaving the state as is,
otherwise clear the map and answer `(OK, "Deleted all entries")`. -/
def admin_handle_delete (state : SharedState) :
    (StatusCode × String) × SharedState :=
  match state.acquire with
  | .error _ => ((.INTERNAL_SERVER_ERROR, "Database corrupted"), state)
  | .ok app =>
      ((.OK, "Deleted all entries"),
       { state with appState := { app with db := [] } })

/-- The admin requests routed by `admin_routes`. -/
inductive AdminRequest where
  | deleteAll
  | deleteKey (key : String)
  deriving DecidableEq, Repr

/-- `RequireAuthorizationLayer::bearer("secret")`: the `Authorization`
header must be present and equal to `Bearer secret`. -/
def bearerAuthValid (authHeader : Option String) : Bool :=
  authHeader = some ("Bearer " ++ "secret")

/-- `admin_routes` with its authorization layer: a request with an invalid
or missing bearer token is answered `UNAUTHORIZED` with an empty body and
the state untouched; a valid one is dispatched to its handler, whose
`(status, str)` answer becomes a text response. -/
def admin_routes (authHeader : Option String) (req : AdminRequest)
    (state : SharedState) : Response × SharedState :=
  if bearerAuthValid authHeader then
    match req with
    | .deleteAll =>
        let r := admin_handle_delete state
        (⟨r.1.1, .text r.1.2⟩, r.2)
    | .deleteKey key =>
        let r := admin_handle_delete_key key state
        (⟨r.1.1, .text r.1.2⟩, r.2)
  else (⟨.UNAUTHORIZED, .raw []⟩, state)

/-- `handler_hello`: greeting markup interpolating the optional `name`
query parameter, defaulting to `Unknown Visitor`; `Html<String>` renders
as a status-OK response. -/
def handler_hello (name : Option String) : Response :=
  ⟨.OK, .text ("<h1>Hello " ++ name.getD "Unknown Visitor" ++ "</h1>")⟩

/-- The error values reaching `handle_error` (`BoxError`): the `Elapsed`
error of the timeout layer, an `std::io::Error`, or any other boxed
error. -/
inductive BoxError where
  | elapsed
  | ioError (msg : String)
  | other (msg : String)
  deriving DecidableEq, Repr

/-- `handle_error`: `Elapsed` maps to `(REQUEST_TIMEOUT, "Request timed
out")`; an I/O error and every other error map to `(INTERNAL_SERVER_ERROR,
"Internal Server Error")` (details only go to the server log). -/
def handle_error : BoxError → StatusCode × String
  | .elapsed => (.REQUEST_TIMEOUT, "Request timed out")
  | .ioError _ => (.INTERNAL_SERVER_ERROR, "Internal Server Error")
  | .other _ => (.INTERNAL_SERVER_ERROR, "Internal Server Error")

/-- A request as seen by the logging middleware: method and URI. -/
structure Request where
  method : String
  uri : String
  deriving DecidableEq, Repr

/-- `Logger::call`: print `"{method} {uri}"` (modelled as the emitted log
line) and delegate to the inner service; whatever the inner service
returns — response or error — is returned unchanged. -/
def Logger.call {R : Type} (inner : Request → R) (req : Request) :
    List String × R :=
  ([req.method ++ " " ++ req.uri], inner req)

/-! ### Lemmas about the map operations -/

theorem dbGet_dbInsert_self (db : Db) (k : String) (v : Bytes) :
    dbGet (dbInsert db k v) k = some v := by
  induction db with
  | nil => simp [dbInsert, dbGet]
  | cons hd tl ih =>
      obtain ⟨k', v'⟩ := hd
      by_cases h : k' = k <;> simp [dbInsert, dbGet, h, ih]

theorem dbGet_dbInsert_ne (db : Db) (k k' : String) (v : Bytes)
    (h : k' ≠ k) : dbGet (dbInsert db k v) k' = dbGet db k' := by
  have hkk : k ≠ k' := Ne.symm h
  induction db with
  | nil => simp [dbInsert, dbGet, hkk]
  | cons hd tl ih =>
      obtain ⟨k₀, v₀⟩ := hd
      by_cases h₀ : k₀ = k
      · subst h₀
        simp [dbInsert, dbGet, hkk]
      · simp [dbInsert, dbGet, h₀, ih]

theorem dbGet_dbRemove_ne (db : Db) (k k' : String)
    (h : k' ≠ k) : dbGet (dbRemove db k) k' = dbGet db k' := by
  have hkk : k ≠ k' := Ne.symm h
  induction db with
  | nil => simp [dbRemove]
  | cons hd tl ih =>
      obtain ⟨k₀, v₀⟩ := hd
      by_cases h₀ : k₀ = k
      · subst h₀
        simp [dbRemove, dbGet, hkk]
      · simp [dbRemove, dbGet, h₀, ih]

theorem dbGet_eq_none_of_not_mem_keys (db : Db) (k : String)
    (h : k ∉ db.map Prod.fst) : dbGet db k = none := by
  induction db with
  | nil => simp [dbGet]
  | cons hd tl ih =>
      obtain ⟨k₀, v₀⟩ := hd
      simp only [List.map_cons, List.mem_cons] at h
      push_neg at h
      simp [dbGet, Ne.symm h.1, ih h.2]

theorem dbGet_dbRemove_self (db : Db) (k : String)
    (hnd : (db.map Prod.fst).Nodup) : dbGet (dbRemove db k) k = none := by
  induction db with
  | nil => simp [dbRemove, dbGet]
  | cons hd tl ih =>
      obtain ⟨k₀, v₀⟩ := hd
      simp only [List.map_cons, List.nodup_cons] at hnd
      by_cases h₀ : k₀ = k
      · subst h₀
        simpa [dbRemove] using dbGet_eq_none_of_not_mem_keys tl k₀ hnd.1
      · simp [dbRemove, dbGet, h₀, ih hnd.2]

theorem dbRemove_of_dbGet_eq_none (db : Db) (k : String)
    (h : dbGet db k = none) : dbRemove db k = db := by
  induction db with
  | nil => simp [dbRemove]
  | cons hd tl ih =>
      obtain ⟨k₀, v₀⟩ := hd
      by_cases h₀ : k₀ = k
      · simp [dbGet, h₀] at h
      · simp only [dbGet, h₀, if_false] at h
        simp [dbRemove, h₀, ih h]

/-! ### Claim theorems -/

/-- C1: for every key `k` and byte value `v`, performing `PUT /kv/k` with
body `v` (`handler_kv_post`, which stores `v` in the shared map) and then
`GET /kv/k` (`handler_kv_get`) on the resulting state returns status OK
with body exactly `v`. -/
theorem put_then_get_roundtrip (k : String) (v : Bytes) (s : SharedState)
    (h : s.poisoned = false) :
    (handler_kv_post k s v).1 = .ok "Inserted key" ∧
    kvGetResponse k (handler_kv_post k s v).2 = ⟨.OK, .raw v⟩ := by
  constructor
  · simp [handler_kv_post, SharedState.acquire, h]
  · simp [handler_kv_post, SharedState.acquire, h, kvGetResponse,
      handler_kv_get, dbGet_dbInsert_self]

theorem put_then_get_roundtrip_witness :
    (SharedState.mk false ⟨[]⟩).poisoned = false ∧
    ((handler_kv_post "test" (SharedState.mk false ⟨[]⟩) [72, 105]).1 =
        .ok "Inserted key" ∧
      kvGetResponse "test"
          (handler_kv_post "test" (SharedState.mk false ⟨[]⟩) [72, 105]).2 =
        ⟨.OK, .raw [72, 105]⟩) :=
  ⟨rfl, put_then_get_roundtrip "test" [72, 105] (SharedState.mk false ⟨[]⟩) rfl⟩

/-- C2: for every key absent from the store, `GET /kv/k`
(`handler_kv_get`) returns status NotFound with body "Key not found"; for
every key present, it returns status OK with the stored bytes. -/
theorem get_absent_404_present_ok (s : SharedState) (k : String)
    (h : s.poisoned = false) :
    (dbGet s.appState.db k = none →
      kvGetResponse k s = ⟨.NOT_FOUND, .text "Key not found"⟩) ∧
    (∀ v, dbGet s.appState.db k = some v →
      kvGetResponse k s = ⟨.OK, .raw v⟩) := by
  constructor
  · intro hn
    simp [kvGetResponse, handler_kv_get, SharedState.acquire, h, hn,
      DbError.intoResponse]
  · intro v hv
    simp [kvGetResponse, handler_kv_get, SharedState.acquire, h, hv]

theorem get_absent_404_present_ok_witness :
    kvGetResponse "b" (SharedState.mk false ⟨[("a", [1])]⟩) =
      ⟨.NOT_FOUND, .text "Key not found"⟩ ∧
    kvGetResponse "a" (SharedState.mk false ⟨[("a", [1])]⟩) =
      ⟨.OK, .raw [1]⟩ :=
  ⟨(get_absent_404_present_ok (SharedState.mk false ⟨[("a", [1])]⟩) "b"
      rfl).1 (by decide),
   (get_absent_404_present_ok (SharedState.mk false ⟨[("a", [1])]⟩) "a"
      rfl).2 [1] (by decide)⟩

/-- C3: a `DELETE /admin/kv/k` whose `Authorization` header is missing or
does not carry the configured bearer token is rejected with status
Unauthorized before any handler runs and the store state is exactly
unchanged; with the valid token the request reaches
`admin_handle_delete_key` and `k` is absent from the store afterwards. -/
theorem admin_delete_key_requires_auth (s : SharedState) (k : String)
    (auth : Option String) :
    (bearerAuthValid auth = false →
      admin_routes auth (.deleteKey k) s = (⟨.UNAUTHORIZED, .raw []⟩, s)) ∧
    (bearerAuthValid auth = true →
      admin_routes auth (.deleteKey k) s =
        (⟨(admin_handle_delete_key k s).1.1,
           .text (admin_handle_delete_key k s).1.2⟩,
         (admin_handle_delete_key k s).2)) ∧
    (bearerAuthValid auth = true → s.poisoned = false →
      (s.appState.db.map Prod.fst).Nodup →
      dbGet (admin_routes auth (.deleteKey k) s).2.appState.db k = none) := by
  refine ⟨?_, ?_, ?_⟩
  · intro hf
    simp [admin_routes, hf]
  · intro ht
    simp [admin_routes, ht]
  · intro ht hp hnd
    simp [admin_routes, ht, admin_handle_delete_key, SharedState.acquire, hp,
      dbGet_dbRemove_self _ _ hnd]

theorem admin_delete_key_requires_auth_witness :
    admin_routes none (.deleteKey "x") (SharedState.mk false ⟨[("x", [7])]⟩) =
      (⟨.UNAUTHORIZED, .raw []⟩, SharedState.mk false ⟨[("x", [7])]⟩) ∧
    dbGet (admin_routes (some "Bearer secret") (.deleteKey "x")
      (SharedState.mk false ⟨[("x", [7])]⟩)).2.appState.db "x" = none :=
  ⟨(admin_delete_key_requires_auth (SharedState.mk false ⟨[("x", [7])]⟩)
      "x" none).1 (by decide),
   (admin_delete_key_requires_auth (SharedState.mk false ⟨[("x", [7])]⟩)
      "x" (some "Bearer secret")).2.2 (by decide) rfl (by decide)⟩

/-- C4: `DELETE /admin/kv` with the valid bearer token
(`admin_handle_delete`) returns status OK with body "Deleted all entries"
and leaves the store empty: every subsequent `GET /kv/k` returns status
NotFound. -/
theorem admin_delete_all_clears (s : SharedState) (auth : Option String)
    (hauth : bearerAuthValid auth = true) (hp : s.poisoned = false) :
    (admin_routes auth .deleteAll s).1 = ⟨.OK, .text "Deleted all entries"⟩ ∧
    (admin_routes auth .deleteAll s).2.appState.db = [] ∧
    ∀ k, kvGetResponse k (admin_routes auth .deleteAll s).2 =
      ⟨.NOT_FOUND, .text "Key not found"⟩ := by
  refine ⟨?_, ?_, ?_⟩
  · simp [admin_routes, hauth, admin_handle_delete, SharedState.acquire, hp]
  · simp [admin_routes, hauth, admin_handle_delete, SharedState.acquire, hp]
  · intro k
    simp [admin_routes, hauth, admin_handle_delete, SharedState.acquire, hp,
      kvGetResponse, handler_kv_get, dbGet, DbError.intoResponse]

theorem admin_delete_all_clears_witness :
    (admin_routes (some "Bearer secret") .deleteAll
      (SharedState.mk false ⟨[("a", [1]), ("b", [2])]⟩)).2.appState.db = [] ∧
    kvGetResponse "a" (admin_routes (some "Bearer secret") .deleteAll
      (SharedState.mk false ⟨[("a", [1]), ("b", [2])]⟩)).2 =
      ⟨.NOT_FOUND, .text "Key not found"⟩ :=
  ⟨(admin_delete_all_clears (SharedState.mk false ⟨[("a", [1]), ("b", [2])]⟩)
      (some "Bearer secret") (by decide) rfl).2.1,
   (admin_delete_all_clears (SharedState.mk false ⟨[("a", [1]), ("b", [2])]⟩)
      (some "Bearer secret") (by decide) rfl).2.2 "a"⟩

/-- C5: `DELETE /admin/kv/k` reaching `admin_handle_delete_key` returns
status OK with body "Deleted entry" whether or not `k` is present, and
removing an absent key leaves the state exactly unchanged (a no-op, not
an error). -/
theorem admin_delete_key_ok_noop (s : SharedState) (k : String)
    (hp : s.poisoned = false) :
    (admin_handle_delete_key k s).1 = (.OK, "Deleted entry") ∧
    (dbGet s.appState.db k = none → (admin_handle_delete_key k s).2 = s) := by
  constructor
  · simp [admin_handle_delete_key, SharedState.acquire, hp]
  · intro hn
    have hacq : s.acquire = .ok s.appState := by
      simp [SharedState.acquire, hp]
    simp only [admin_handle_delete_key, hacq,
      dbRemove_of_dbGet_eq_none _ _ hn]

theorem admin_delete_key_ok_noop_witness :
    (admin_handle_delete_key "b" (SharedState.mk false ⟨[("a", [1])]⟩)).1 =
      (.OK, "Deleted entry") ∧
    (admin_handle_delete_key "b" (SharedState.mk false ⟨[("a", [1])]⟩)).2 =
      SharedState.mk false ⟨[("a", [1])]⟩ :=
  ⟨(admin_delete_key_ok_noop (SharedState.mk false ⟨[("a", [1])]⟩) "b" rfl).1,
   (admin_delete_key_ok_noop (SharedState.mk false ⟨[("a", [1])]⟩) "b"
      rfl).2 (by decide)⟩

/-- C6: `handle_error` maps a timeout-elapsed error to status
RequestTimeout (408) with body "Request timed out", and every other error,
I/O errors included, to status InternalServerError (500) with the fixed
body "Internal Server Error"; no error detail appears in the body. -/
theorem handle_error_normalization :
    handle_error .elapsed = (.REQUEST_TIMEOUT, "Request timed out") ∧
    (∀ msg, handle_error (.ioError msg) =
      (.INTERNAL_SERVER_ERROR, "Internal Server Error")) ∧
    (∀ msg, handle_error (.other msg) =
      (.INTERNAL_SERVER_ERROR, "Internal Server Error")) ∧
    StatusCode.REQUEST_TIMEOUT.toNat = 408 :=
  ⟨rfl, fun _ => rfl, fun _ => rfl, rfl⟩

/-- C7: when the lock is poisoned, every store operation fails: each
handler returns status InternalServerError (500) with body "Database
corrupted" and leaves the state untouched instead of reading or writing
the map. -/
theorem poisoned_store_all_ops_fail (s : SharedState) (k : String)
    (v : Bytes) (hp : s.poisoned = true) :
    handler_kv_get k s =
      .error ⟨.INTERNAL_SERVER_ERROR, "Database corrupted"⟩ ∧
    handler_kv_post k s v =
      (.error (.INTERNAL_SERVER_ERROR, "Database corrupted"), s) ∧
    admin_handle_delete_key k s =
      ((.INTERNAL_SERVER_ERROR, "Database corrupted"), s) ∧
    admin_handle_delete s =
      ((.INTERNAL_SERVER_ERROR, "Database corrupted"), s) ∧
    StatusCode.INTERNAL_SERVER_ERROR.toNat = 500 := by
  refine ⟨?_, ?_, ?_, ?_, rfl⟩ <;>
    simp [handler_kv_get, handler_kv_post, admin_handle_delete_key,
      admin_handle_delete, SharedState.acquire, hp, DbError.fromPoison]

theorem poisoned_store_all_ops_fail_witness :
    handler_kv_get "k" (SharedState.mk true ⟨[]⟩) =
      .error ⟨.INTERNAL_SERVER_ERROR, "Database corrupted"⟩ ∧
    admin_handle_delete (SharedState.mk true ⟨[]⟩) =
      ((.INTERNAL_SERVER_ERROR, "Database corrupted"),
       SharedState.mk true ⟨[]⟩) :=
  ⟨(poisoned_store_all_ops_fail (SharedState.mk true ⟨[]⟩) "k" [0] rfl).1,
   (poisoned_store_all_ops_fail (SharedState.mk true ⟨[]⟩) "k" [0]
      rfl).2.2.2.1⟩

/-- C8: `handler_hello` returns status OK with greeting markup
interpolating the `name` query parameter; when the parameter is absent
the greeting uses "Unknown Visitor". -/
theorem hello_greeting :
    (∀ x, handler_hello (some x) =
      ⟨.OK, .text ("<h1>Hello " ++ x ++ "</h1>")⟩) ∧
    handler_hello none = ⟨.OK, .text "<h1>Hello Unknown Visitor</h1>"⟩ :=
  ⟨fun _ => rfl, rfl⟩

/-- C9: the logging layer forwards the request to the inner service and
returns whatever the inner service produces, unchanged. -/
theorem logger_forwards_unchanged {R : Type} (inner : Request → R)
    (req : Request) : (Logger.call inner req).2 = inner req := rfl

/-- C10: for distinct keys, `PUT /kv/k` (`handler_kv_post`) and
`DELETE /admin/kv/k` (`admin_handle_delete_key`) leave the mapping at
every key other than `k` exactly unchanged. -/
theorem single_key_ops_frame (s : SharedState) (k k' : String) (v : Bytes)
    (h : k' ≠ k) :
    dbGet (handler_kv_post k s v).2.appState.db k' =
      dbGet s.appState.db k' ∧
    dbGet (admin_handle_delete_key k s).2.appState.db k' =
      dbGet s.appState.db k' := by
  cases hp : s.poisoned
  · constructor <;>
      simp [handler_kv_post, admin_handle_delete_key, SharedState.acquire,
        hp, dbGet_dbInsert_ne _ _ _ _ h, dbGet_dbRemove_ne _ _ _ h]
  · constructor <;>
      simp [handler_kv_post, admin_handle_delete_key, SharedState.acquire, hp]

theorem single_key_ops_frame_witness :
    dbGet (handler_kv_post "b" (SharedState.mk false ⟨[("a", [1])]⟩)
      [9]).2.appState.db "a" =
      dbGet (SharedState.mk false ⟨[("a", [1])]⟩).appState.db "a" ∧
    dbGet (admin_handle_delete_key "b"
      (SharedState.mk false ⟨[("a", [1])]⟩)).2.appState.db "a" =
      dbGet (SharedState.mk false ⟨[("a", [1])]⟩).appState.db "a" :=
  single_key_ops_frame (SharedState.mk false ⟨[("a", [1])]⟩) "b" "a" [9]
    (by decide)

end KV
